import Mathlib

/-!
Verification development for the r.erosion GRASS module.

The module (r.erosion.py) is an orchestration layer: every computational step is a
call to an external raster engine (r.mapcalc, r.slope.aspect, r.watershed,
r.grow.distance, g.remove).  The embedding below models

* raster grids as real-valued functions over an abstract cell index type;
* the external engine (slope, aspect, dx, dy, flow accumulation, border growing,
  region resolution) as an abstract structure of grid transformers;
* the model functions rusle and usped as the composition of the r.mapcalc
  expressions they issue, translated expression by expression from the source;
* the event-based R-factor path (event_based_r_factor) as a small-step trace over
  a workspace of named scalar maps, with an external-failure oracle so that the
  behaviour on a raised CalledModuleError is visible;
* the control flow of main (factor fallbacks, event-based branch, the placement
  of the atexit cleanup registration) as functions on an option record.
-/

/-- A raster grid over cell index type ι: double precision cell values are modelled
as real numbers. -/
def Grid (ι : Type) : Type := ι → ℝ

/-- The fixed names of the scalar maps written by the r.erosion.py workspace code
that the claims are about: the event-based R-factor scratch maps
(r.erosion.py lines 236-238) and the three factor maps built by main
(lines 200, 209, 215). -/
inductive MapName
  | rain_energy
  | rain_volume
  | erosivity
  | r_factor
  | k_factor
  | c_factor
  deriving DecidableEq

/-- The GRASS workspace restricted to the fixed map names above.  The maps created
on the event-based path are spatially constant, so a cell value per name suffices. -/
def Ws : Type := MapName → Option ℝ

/-- Models an r.mapcalc assignment writing map name (overwrite=True). -/
def Ws.set (w : Ws) (name : MapName) (v : ℝ) : Ws :=
  fun nm => if nm = name then some v else w nm

/-- Models g.remove -f: delete the listed maps; absent maps are simply absent
afterwards (g.remove -f does not fail on absent maps). -/
def Ws.removeAll (w : Ws) (names : List MapName) : Ws :=
  fun nm => if nm ∈ names then none else w nm

/-- The empty workspace: no maps exist. -/
def emptyWs : Ws := fun _ => none

namespace Mapcalc

/-- Models the r.mapcalc sine: the argument is an angle in degrees
(the GRASS convention used by r.slope.aspect output). -/
noncomputable def sin (x : ℝ) : ℝ := Real.sin (x * Real.pi / 180)

/-- Models the r.mapcalc cosine: the argument is an angle in degrees. -/
noncomputable def cos (x : ℝ) : ℝ := Real.cos (x * Real.pi / 180)

end Mapcalc

/-- The external raster engine, abstracted: slope, aspect and the directional
derivatives dx, dy are the outputs of r.slope.aspect; flowacc is the output of
r.watershed -a; grow is r.grow.distance (nearest-valid-value fill); res is the
region cell resolution (g.region nsres). -/
structure Engine (ι : Type) where
  slope : Grid ι → Grid ι
  aspect : Grid ι → Grid ι
  dx : Grid ι → Grid ι
  dy : Grid ι → Grid ι
  flowacc : Grid ι → Grid ι
  grow : Grid ι → Grid ι
  res : ℝ

/-- The three output grids of a model run (the erosion, flow_accumulation and
ls_factor output options of r.erosion.py). -/
structure ErosionResult (ι : Type) where
  erosion : Grid ι
  flow_accumulation : Grid ι
  ls_factor : Grid ι

/-- The rusle function of r.erosion.py (lines 324-454), expression by expression:
slope is derived and border-grown (lines 337-354); the flow accumulation output is
flowacc * resolution (lines 357-373); ls_factor, sedflow and the unit-converted
erosion output follow the r.mapcalc expressions at lines 376-387, 399-411 and
414-422.  The per-year-to-per-second conversion (lines 424-437) is commented out
in the source and therefore absent here. -/
noncomputable def rusle {ι : Type} (E : Engine ι)
    (elevation r_factor c_factor k_factor : Grid ι)
    (m_coeff n_coeff : ℝ) : ErosionResult ι :=
  let slope := E.grow (E.slope elevation)
  let flow_accumulation : Grid ι := fun cell => E.flowacc elevation cell * E.res
  let ls_factor : Grid ι := fun cell =>
    (m_coeff + 1.0) * ((flow_accumulation cell / 22.1) ^ m_coeff)
      * ((Mapcalc.sin (slope cell) / 5.14) ^ n_coeff)
  let sedflow : Grid ι := fun cell =>
    r_factor cell * k_factor cell * ls_factor cell * c_factor cell
  let erosion : Grid ι := fun cell => sedflow cell * 1000 / 10000
  ⟨erosion, flow_accumulation, ls_factor⟩

/-- usped (r.erosion.py lines 477-506): slope output of r.slope.aspect,
border-grown by r.grow.distance and copied back by r.mapcalc. -/
noncomputable def usped_slope {ι : Type} (E : Engine ι) (elevation : Grid ι) : Grid ι :=
  E.grow (E.slope elevation)

/-- usped (r.erosion.py lines 477-506): aspect output of r.slope.aspect,
border-grown. -/
noncomputable def usped_aspect {ι : Type} (E : Engine ι) (elevation : Grid ι) : Grid ι :=
  E.grow (E.aspect elevation)

/-- usped (r.erosion.py lines 509-525): flow accumulation (r.watershed -a)
multiplied cellwise by the region resolution. -/
noncomputable def usped_flow_accumulation {ι : Type} (E : Engine ι)
    (elevation : Grid ι) : Grid ι :=
  fun cell => E.flowacc elevation cell * E.res

/-- usped (r.erosion.py lines 530-539): the dimensionless topographic factor
ls_factor = flowacc^m * sin(slope)^n. -/
noncomputable def usped_ls_factor {ι : Type} (E : Engine ι) (elevation : Grid ι)
    (m_coeff n_coeff : ℝ) : Grid ι :=
  fun cell =>
    (usped_flow_accumulation E elevation cell ^ m_coeff)
      * (Mapcalc.sin (usped_slope E elevation cell) ^ n_coeff)

/-- usped (r.erosion.py lines 553-565): sediment flow at transport capacity
sedflow = r_factor * k_factor * c_factor * ls_factor. -/
noncomputable def usped_sedflow {ι : Type} (E : Engine ι)
    (elevation r_factor c_factor k_factor : Grid ι) (m_coeff n_coeff : ℝ) : Grid ι :=
  fun cell =>
    r_factor cell * k_factor cell * c_factor cell
      * usped_ls_factor E elevation m_coeff n_coeff cell

/-- usped (r.erosion.py lines 568-578): unit conversion of sedflow,
sediment_flux = sedflow * 1000 / 10000.  The per-year-to-per-second variant
(lines 580-593) is commented out in the source and therefore absent here. -/
noncomputable def usped_sediment_flux {ι : Type} (E : Engine ι)
    (elevation r_factor c_factor k_factor : Grid ι) (m_coeff n_coeff : ℝ) : Grid ι :=
  fun cell =>
    usped_sedflow E elevation r_factor c_factor k_factor m_coeff n_coeff cell
      * 1000 / 10000

/-- usped (r.erosion.py lines 596-601): x component of the sediment flux,
qsx = sediment_flux * cos(aspect). -/
noncomputable def usped_qsx {ι : Type} (E : Engine ι)
    (elevation r_factor c_factor k_factor : Grid ι) (m_coeff n_coeff : ℝ) : Grid ι :=
  fun cell =>
    usped_sediment_flux E elevation r_factor c_factor k_factor m_coeff n_coeff cell
      * Mapcalc.cos (usped_aspect E elevation cell)

/-- usped (r.erosion.py lines 604-610): y component of the sediment flux,
qsy = sediment_flux * sin(aspect). -/
noncomputable def usped_qsy {ι : Type} (E : Engine ι)
    (elevation r_factor c_factor k_factor : Grid ι) (m_coeff n_coeff : ℝ) : Grid ι :=
  fun cell =>
    usped_sediment_flux E elevation r_factor c_factor k_factor m_coeff n_coeff cell
      * Mapcalc.sin (usped_aspect E elevation cell)

/-- usped (r.erosion.py lines 614-618 and 629-639): the x derivative of qsx,
obtained by running r.slope.aspect on qsx as if it were elevation, then
border-grown. -/
noncomputable def usped_qsxdx {ι : Type} (E : Engine ι)
    (elevation r_factor c_factor k_factor : Grid ι) (m_coeff n_coeff : ℝ) : Grid ι :=
  E.grow (E.dx (usped_qsx E elevation r_factor c_factor k_factor m_coeff n_coeff))

/-- usped (r.erosion.py lines 622-626 and 640-650): the y derivative of qsy,
obtained by running r.slope.aspect on qsy, then border-grown. -/
noncomputable def usped_qsydy {ι : Type} (E : Engine ι)
    (elevation r_factor c_factor k_factor : Grid ι) (m_coeff n_coeff : ℝ) : Grid ι :=
  E.grow (E.dy (usped_qsy E elevation r_factor c_factor k_factor m_coeff n_coeff))

/-- The usped function of r.erosion.py (lines 457-686): the erosion output is
qsxdx + qsydy (lines 654-660); the flow accumulation and ls_factor outputs are as
above. -/
noncomputable def usped {ι : Type} (E : Engine ι)
    (elevation r_factor c_factor k_factor : Grid ι)
    (m_coeff n_coeff : ℝ) : ErosionResult ι :=
  ⟨fun cell =>
      usped_qsxdx E elevation r_factor c_factor k_factor m_coeff n_coeff cell
        + usped_qsydy E elevation r_factor c_factor k_factor m_coeff n_coeff cell,
   usped_flow_accumulation E elevation,
   usped_ls_factor E elevation m_coeff n_coeff⟩

/-- One run state of the event-based R-factor trace: the workspace so far and
whether an external command has raised (a raised CalledModuleError propagates,
so all later steps are skipped). -/
structure RunState where
  ws : Ws
  errored : Bool

/-- Runs a list of external steps in order, numbering them from k.  The oracle
fails says which external invocations raise; a step that raises (or whose input
map is missing) leaves the workspace as it is and aborts the remaining steps,
exactly as an uncaught Python exception does. -/
def runSteps (fails : ℕ → Bool) : List (Ws → Option Ws) → ℕ → RunState → RunState
  | [], _, s => s
  | step :: rest, k, s =>
    if s.errored then s
    else if fails k then ⟨s.ws, true⟩
    else
      match step s.ws with
      | none => ⟨s.ws, true⟩
      | some w => runSteps fails rest (k + 1) ⟨w, false⟩

/-- The six external commands issued by event_based_r_factor
(r.erosion.py lines 242-319), in source order:
0. rain_energy = 0.29*(1.-(0.72*exp(-0.05*intensity)))        (lines 242-248)
1. rain_volume = intensity*(duration/60.)                     (lines 257-266)
2. erosivity   = (rain_energy*rain_volume)*intensity*1.       (lines 269-280)
3. r_factor    = erosivity/(duration*60.)                     (lines 283-292)
4. r_factor    = erosivity/(duration/525600.)                 (lines 301-310)
5. g.remove -f rain_energy, rain_volume, erosivity            (lines 313-319) -/
noncomputable def eventSteps (rain_intensity rain_duration : ℝ) : List (Ws → Option Ws) :=
  [fun w => some (w.set MapName.rain_energy
      (0.29 * (1 - 0.72 * Real.exp (-0.05 * rain_intensity)))),
   fun w => some (w.set MapName.rain_volume
      (rain_intensity * (rain_duration / 60))),
   fun w =>
     match w MapName.rain_energy, w MapName.rain_volume with
     | some e, some v => some (w.set MapName.erosivity (e * v * rain_intensity * 1))
     | _, _ => none,
   fun w =>
     match w MapName.erosivity with
     | some er => some (w.set MapName.r_factor (er / (rain_duration * 60)))
     | none => none,
   fun w =>
     match w MapName.erosivity with
     | some er => some (w.set MapName.r_factor (er / (rain_duration / 525600)))
     | none => none,
   fun w => some (w.removeAll
      [MapName.rain_energy, MapName.rain_volume, MapName.erosivity])]

/-- The event_based_r_factor function of r.erosion.py (lines 232-321), as the
trace of its six external commands from the empty workspace, with an oracle for
external failures. -/
noncomputable def event_based_r_factor (rain_intensity rain_duration : ℝ)
    (fails : ℕ → Bool) : RunState :=
  runSteps fails (eventSteps rain_intensity rain_duration) 0 ⟨emptyWs, false⟩

/-- The oracle of a run on which no external command raises. -/
def noFail : ℕ → Bool := fun _ => false

/-- The model option of r.erosion.py (rusle or usped; any other value makes both
model dispatch conditionals at lines 222-227 false). -/
inductive ModelKind
  | rusle
  | usped
  | invalid
  deriving DecidableEq

/-- The parsed options of r.erosion.py that drive the control flow of main
(lines 180-195): presence of the optional inputs and the fallback constants. -/
structure Options where
  model : ModelKind
  rain_intensity : Option ℤ
  rain_duration : Option ℤ
  r_factor : Option String
  k_factor : Option String
  c_factor : Option String
  r_factor_value : ℝ
  k_factor_value : ℝ
  c_factor_value : ℝ

/-- The option defaults declared in the module header of r.erosion.py:
model=rusle, r_factor_value=310.0, k_factor_value=0.25, c_factor_value=0.1,
all optional map inputs absent. -/
noncomputable def defaultOptions : Options :=
  ⟨ModelKind.rusle, none, none, none, none, none, 310.0, 0.25, 0.1⟩

/-- Options with rain_intensity supplied but rain_duration absent. -/
noncomputable def optsIntensityOnly : Options :=
  ⟨ModelKind.rusle, some 50, none, none, none, none, 310.0, 0.25, 0.1⟩

/-- Where the R-factor grid used by the model comes from. -/
inductive RSource
  | constant (v : ℝ)
  | supplied
  | eventBased

/-- Where the K- or C-factor grid used by the model comes from. -/
inductive FactorSource
  | constant (v : ℝ)
  | supplied

/-- The R-factor branch of main (r.erosion.py lines 197-207): the event-based
path is guarded only by rain_intensity being non-empty; otherwise a supplied
r_factor map is used as is, and failing that a constant map with value
r_factor_value is built. -/
def rFactorSource (o : Options) : RSource :=
  if o.rain_intensity.isSome then RSource.eventBased
  else if o.r_factor.isSome then RSource.supplied
  else RSource.constant o.r_factor_value

/-- The K-factor fallback of main (r.erosion.py lines 214-219). -/
def kFactorSource (o : Options) : FactorSource :=
  if o.k_factor.isSome then FactorSource.supplied
  else FactorSource.constant o.k_factor_value

/-- The C-factor fallback of main (r.erosion.py lines 208-213). -/
def cFactorSource (o : Options) : FactorSource :=
  if o.c_factor.isSome then FactorSource.supplied
  else FactorSource.constant o.c_factor_value

/-- Number of external commands main issues to obtain the R-factor grid:
6 on the event-based path (the commands of event_based_r_factor), 0 when a map
is supplied, 1 r.mapcalc for the constant fallback. -/
def rFactorSteps (o : Options) : ℕ :=
  if o.rain_intensity.isSome then 6 else if o.r_factor.isSome then 0 else 1

/-- Number of external commands for the C-factor grid (one r.mapcalc when no map
is supplied). -/
def cFactorSteps (o : Options) : ℕ :=
  if o.c_factor.isSome then 0 else 1

/-- Number of external commands for the K-factor grid. -/
def kFactorSteps (o : Options) : ℕ :=
  if o.k_factor.isSome then 0 else 1

/-- Number of external commands issued by the selected model function:
rusle issues 11 (r.erosion.py lines 337-454), usped issues 22 (lines 477-686). -/
def modelSteps (o : Options) : ℕ :=
  match o.model with
  | ModelKind.rusle => 11
  | ModelKind.usped => 22
  | ModelKind.invalid => 0

/-- Total number of external commands main issues before it reaches the
atexit.register(cleanup) statement at r.erosion.py line 228.  Every external
command of a run precedes that statement. -/
def mainSteps (o : Options) : ℕ :=
  rFactorSteps o + cFactorSteps o + kFactorSteps o + modelSteps o

/-- The state of the process at interpreter exit: whether cleanup was registered
with atexit, and whether an exception propagated out of main. -/
structure ProcExit where
  registered : Bool
  raised : Bool

/-- The control flow of main (r.erosion.py lines 179-229) with respect to the
cleanup registration: atexit.register(cleanup) is the statement after the model
dispatch, so it is reached exactly when none of the external commands raised;
a raising command aborts main before the registration. -/
def mainRun (fails : ℕ → Bool) (o : Options) : ProcExit :=
  if (List.range (mainSteps o)).any fails then ⟨false, true⟩ else ⟨true, false⟩

/-- How many times the cleanup function runs when the interpreter exits: atexit
runs each registered handler exactly once, and cleanup is registered at most
once per run. -/
def cleanup_invocations (p : ProcExit) : ℕ :=
  if p.registered then 1 else 0

/-- Models the g.remove call inside cleanup: it raises CalledModuleError exactly
when the external command fails. -/
def g_remove_scratch (raisesCalledModuleError : Bool) : Except Unit Unit :=
  if raisesCalledModuleError then Except.error () else Except.ok ()

/-- The cleanup function of r.erosion.py (lines 689-713): the g.remove call is
wrapped in a try block whose except CalledModuleError handler passes, so cleanup
itself never raises. -/
def cleanup (raisesCalledModuleError : Bool) : Except Unit Unit :=
  match g_remove_scratch raisesCalledModuleError with
  | Except.ok u => Except.ok u
  | Except.error _ => Except.ok ()

/-- Builds the constant factor maps in the given order, each by one r.mapcalc
assignment (r.erosion.py lines 200-204, 209-213, 215-219), starting from an
empty workspace. -/
def buildFactorGrids (l : List (MapName × ℝ)) : Ws :=
  l.foldl (fun w p => Ws.set w p.1 p.2) emptyWs

/-- Runs rusle with the three factor grids taken as the constant maps stored in
the workspace under their fixed names, and returns the erosion output grid. -/
noncomputable def rusleErosionFromWorkspace {ι : Type} (E : Engine ι)
    (elevation : Grid ι) (m_coeff n_coeff : ℝ) (w : Ws) : Grid ι :=
  (rusle E elevation
    (fun _ => (w MapName.r_factor).getD 0)
    (fun _ => (w MapName.c_factor).getD 0)
    (fun _ => (w MapName.k_factor).getD 0)
    m_coeff n_coeff).erosion

/-- A one-cell elevation grid of constant height 0. -/
noncomputable def flatElev : Grid Unit := fun _ => 0

/-- A one-cell grid of constant value 1. -/
noncomputable def unitOne : Grid Unit := fun _ => 1

/-- A concrete engine producing flat terrain: slope, aspect and both directional
derivatives are 0 everywhere, flow accumulation is the constant 22.1, border
growing is the identity, and the region resolution is 1. -/
noncomputable def flatEngine : Engine Unit :=
  ⟨fun _ => fun _ => 0,
   fun _ => fun _ => 0,
   fun _ => fun _ => 0,
   fun _ => fun _ => 0,
   fun _ => fun _ => 22.1,
   fun g => g,
   1⟩

/-- Helper: the r.mapcalc sine of the zero angle is 0. -/
theorem mapcalc_sin_zero : Mapcalc.sin 0 = 0 := by
  simp [Mapcalc.sin]

/-- Helper: the ls_factor output of rusle, written out as the r.mapcalc
expression of r.erosion.py lines 376-387. -/
theorem rusle_ls_factor_eq {ι : Type} (E : Engine ι)
    (elevation r_factor c_factor k_factor : Grid ι) (m_coeff n_coeff : ℝ) (cell : ι) :
    (rusle E elevation r_factor c_factor k_factor m_coeff n_coeff).ls_factor cell
      = (m_coeff + 1.0) * ((E.flowacc elevation cell * E.res / 22.1) ^ m_coeff)
        * ((Mapcalc.sin (E.grow (E.slope elevation) cell) / 5.14) ^ n_coeff) := rfl

/-- Helper: on a run without external failures, the final value of the r_factor
map is the one written by the last r.mapcalc of event_based_r_factor
(r.erosion.py lines 301-310); the assignment at lines 283-292 is overwritten. -/
theorem event_r_factor_raw (rain_intensity rain_duration : ℝ) :
    (event_based_r_factor rain_intensity rain_duration noFail).ws MapName.r_factor
      = some ((0.29 * (1 - 0.72 * Real.exp (-0.05 * rain_intensity)))
          * (rain_intensity * (rain_duration / 60)) * rain_intensity * 1
          / (rain_duration / 525600)) := rfl

/-- Claim C1: for every positive rain intensity and positive rain duration, the
event-based R-factor computation is deterministic (it is a pure function of its
inputs here) and the final r_factor map holds the closed-form composition of the
four formulas: 0.29*(1 - 0.72*exp(-0.05*i)) * (i*(d/60)) * i / (d/525600).  In
particular the intermediate assignment r_factor = erosivity/(d*60)
(r.erosion.py lines 283-292) is overwritten by the following assignment and does
not affect the returned value. -/
theorem event_r_factor_closed_form (rain_intensity rain_duration : ℝ)
    (hi : 0 < rain_intensity) (hd : 0 < rain_duration) :
    (event_based_r_factor rain_intensity rain_duration noFail).ws MapName.r_factor
      = some ((0.29 * (1 - 0.72 * Real.exp (-0.05 * rain_intensity)))
          * (rain_intensity * (rain_duration / 60)) * rain_intensity
          / (rain_duration / 525600)) := by
  rw [event_r_factor_raw, mul_one]

/-- Witness for C1 at the self-test inputs intensity 50 mm/hr, duration 5 min. -/
theorem event_r_factor_closed_form_witness :
    (0:ℝ) < 50 ∧ (0:ℝ) < 5 ∧
      (event_based_r_factor 50 5 noFail).ws MapName.r_factor
        = some ((0.29 * (1 - 0.72 * Real.exp (-0.05 * 50)))
            * (50 * (5 / 60)) * 50 / (5 / 525600)) :=
  ⟨by norm_num, by norm_num,
   event_r_factor_closed_form 50 5 (by norm_num) (by norm_num)⟩

/-- Claim C10: for a fixed intensity, the duration cancels: any two positive
durations give the same final r_factor map, equal to
0.29*(1 - 0.72*exp(-0.05*i)) * i^2 * 8760. -/
theorem event_r_factor_duration_cancels (rain_intensity d1 d2 : ℝ)
    (h1 : 0 < d1) (h2 : 0 < d2) :
    (event_based_r_factor rain_intensity d1 noFail).ws MapName.r_factor
        = (event_based_r_factor rain_intensity d2 noFail).ws MapName.r_factor
      ∧ (event_based_r_factor rain_intensity d1 noFail).ws MapName.r_factor
        = some (0.29 * (1 - 0.72 * Real.exp (-0.05 * rain_intensity))
            * rain_intensity ^ 2 * 8760) := by
  have key : ∀ d : ℝ, 0 < d →
      (event_based_r_factor rain_intensity d noFail).ws MapName.r_factor
        = some (0.29 * (1 - 0.72 * Real.exp (-0.05 * rain_intensity))
            * rain_intensity ^ 2 * 8760) := by
    intro d hd
    rw [event_r_factor_raw]
    congr 1
    have hd0 : d ≠ 0 := ne_of_gt hd
    field_simp
    ring
  exact ⟨(key d1 h1).trans (key d2 h2).symm, key d1 h1⟩

/-- Witness for C10 at intensity 50 and durations 5 and 10 minutes. -/
theorem event_r_factor_duration_cancels_witness :
    (0:ℝ) < 5 ∧ (0:ℝ) < 10 ∧
      ((event_based_r_factor 50 5 noFail).ws MapName.r_factor
          = (event_based_r_factor 50 10 noFail).ws MapName.r_factor
        ∧ (event_based_r_factor 50 5 noFail).ws MapName.r_factor
          = some (0.29 * (1 - 0.72 * Real.exp (-0.05 * 50)) * 50 ^ 2 * 8760)) :=
  ⟨by norm_num, by norm_num,
   event_r_factor_duration_cancels 50 5 10 (by norm_num) (by norm_num)⟩

/-- Claim C4 (code bug): when the third r.mapcalc of event_based_r_factor (the
erosivity expression) raises, the already created scratch maps rain_energy and
rain_volume are left in the workspace: the g.remove at the end of the function
is never reached, and no cleanup is registered yet at that point of main.  On
the failure-free path all three scratch maps are removed. -/
theorem event_scratch_release_violation :
    ((event_based_r_factor 50 5 (fun k => decide (k = 2))).ws
        MapName.rain_energy).isSome = true
  ∧ ((event_based_r_factor 50 5 (fun k => decide (k = 2))).ws
        MapName.rain_volume).isSome = true
  ∧ (event_based_r_factor 50 5 (fun k => decide (k = 2))).errored = true
  ∧ (event_based_r_factor 50 5 noFail).ws MapName.rain_energy = none
  ∧ (event_based_r_factor 50 5 noFail).ws MapName.rain_volume = none
  ∧ (event_based_r_factor 50 5 noFail).ws MapName.erosivity = none :=
  ⟨rfl, rfl, rfl, rfl, rfl, rfl⟩

/-- Claim C6: the RUSLE erosion output equals sediment_flow * 1000 / 10000 in
every cell, with sediment_flow = r_factor * k_factor * ls_factor * c_factor;
the alternate per-year-to-per-second conversion (division by 31557600, commented
out at r.erosion.py lines 424-437) is not applied. -/
theorem rusle_erosion_conversion {ι : Type} (E : Engine ι)
    (elevation r_factor c_factor k_factor : Grid ι) (m_coeff n_coeff : ℝ) (cell : ι) :
    (rusle E elevation r_factor c_factor k_factor m_coeff n_coeff).erosion cell
      = r_factor cell * k_factor cell
          * (rusle E elevation r_factor c_factor k_factor m_coeff n_coeff).ls_factor cell
          * c_factor cell * 1000 / 10000 := rfl

/-- Claim C7: the USPED erosion output equals qsxdx + qsydy in every cell, where
qsx = sediment_flux * cos(aspect) and qsy = sediment_flux * sin(aspect), and
qsxdx, qsydy are the border-grown outputs of the slope-derivation operator (dx
and dy of r.slope.aspect) applied to the flux-component grids. -/
theorem usped_erosion_divergence {ι : Type} (E : Engine ι)
    (elevation r_factor c_factor k_factor : Grid ι) (m_coeff n_coeff : ℝ) (cell : ι) :
    (usped E elevation r_factor c_factor k_factor m_coeff n_coeff).erosion cell
      = E.grow (E.dx (usped_qsx E elevation r_factor c_factor k_factor m_coeff n_coeff)) cell
        + E.grow (E.dy (usped_qsy E elevation r_factor c_factor k_factor m_coeff n_coeff)) cell
  ∧ (∀ c : ι, usped_qsx E elevation r_factor c_factor k_factor m_coeff n_coeff c
      = usped_sediment_flux E elevation r_factor c_factor k_factor m_coeff n_coeff c
        * Mapcalc.cos (usped_aspect E elevation c))
  ∧ (∀ c : ι, usped_qsy E elevation r_factor c_factor k_factor m_coeff n_coeff c
      = usped_sediment_flux E elevation r_factor c_factor k_factor m_coeff n_coeff c
        * Mapcalc.sin (usped_aspect E elevation c)) :=
  ⟨rfl, fun _ => rfl, fun _ => rfl⟩

/-- Claim C8: in both models the flow_accumulation output grid is the raw flow
accumulation multiplied cellwise by the region resolution. -/
theorem flow_accumulation_resolution_scaling {ι : Type} (E : Engine ι)
    (elevation r_factor c_factor k_factor : Grid ι) (m_coeff n_coeff : ℝ) (cell : ι) :
    (rusle E elevation r_factor c_factor k_factor m_coeff n_coeff).flow_accumulation cell
        = E.flowacc elevation cell * E.res
  ∧ (usped E elevation r_factor c_factor k_factor m_coeff n_coeff).flow_accumulation cell
        = E.flowacc elevation cell * E.res :=
  ⟨rfl, rfl⟩

/-- Counterexample to claim C2: on flat terrain with m = n = 1, flow accumulation
constant 22.1 and resolution 1, the ls_factor cell value is
2 * (22.1/22.1)^1 * (sin(0)/5.14)^1 = 0, while the claimed reduction
(m+1) * (flow_accumulation_output/22.1)^m evaluates to 2. -/
theorem rusle_ls_flat_counterexample :
    (rusle flatEngine flatElev unitOne unitOne unitOne 1 1).ls_factor ()
      ≠ ((1:ℝ) + 1)
        * (((rusle flatEngine flatElev unitOne unitOne unitOne 1 1).flow_accumulation ())
            / 22.1) ^ (1:ℝ) := by
  rw [rusle_ls_factor_eq]
  have h1 : flatEngine.grow (flatEngine.slope flatElev) () = 0 := rfl
  have h2 : flatEngine.flowacc flatElev () = 22.1 := rfl
  have h3 : (rusle flatEngine flatElev unitOne unitOne unitOne 1 1).flow_accumulation ()
      = 22.1 * 1 := rfl
  have h4 : flatEngine.res = 1 := rfl
  rw [h1, h2, h3, h4, mapcalc_sin_zero]
  norm_num [Real.rpow_one]

/-- Claim C2 amended: on flat terrain (the slope grid used by the ls_factor
expression is 0 in every cell), the factor (sin(0)/5.14)^n is 0^n, so for every
n > 0 the RUSLE ls_factor grid is identically 0; the claimed reduction to
(m+1) * (flow_accumulation_output/22.1)^m holds only for n = 0. -/
theorem rusle_ls_flat_amended {ι : Type} (E : Engine ι)
    (elevation r_factor c_factor k_factor : Grid ι) (m_coeff n_coeff : ℝ)
    (hflat : ∀ cell, E.grow (E.slope elevation) cell = 0) (hn : 0 < n_coeff)
    (cell : ι) :
    (rusle E elevation r_factor c_factor k_factor m_coeff n_coeff).ls_factor cell
      = 0 := by
  rw [rusle_ls_factor_eq, hflat cell, mapcalc_sin_zero, zero_div,
    Real.zero_rpow (ne_of_gt hn), mul_zero]

/-- Witness for the amended C2 at the flat engine with n = 1. -/
theorem rusle_ls_flat_amended_witness :
    (0:ℝ) < 1 ∧
      (rusle flatEngine flatElev unitOne unitOne unitOne 1 1).ls_factor () = 0 :=
  ⟨by norm_num,
   rusle_ls_flat_amended flatEngine flatElev unitOne unitOne unitOne 1 1
     (fun _ => rfl) (by norm_num) ()⟩

/-- Claim C9: the RUSLE erosion output is the same no matter in which of the six
possible orders the three constant factor maps are built, because the three
r.mapcalc assignments write distinct map names.  The order in the source is
r_factor, then c_factor, then k_factor (r.erosion.py lines 197-219). -/
theorem rusle_factor_build_order_invariant {ι : Type} (E : Engine ι)
    (elevation : Grid ι) (m_coeff n_coeff rv kv cv : ℝ) :
    rusleErosionFromWorkspace E elevation m_coeff n_coeff (buildFactorGrids
        [(MapName.r_factor, rv), (MapName.k_factor, kv), (MapName.c_factor, cv)])
      = rusleErosionFromWorkspace E elevation m_coeff n_coeff (buildFactorGrids
        [(MapName.r_factor, rv), (MapName.c_factor, cv), (MapName.k_factor, kv)])
  ∧ rusleErosionFromWorkspace E elevation m_coeff n_coeff (buildFactorGrids
        [(MapName.c_factor, cv), (MapName.r_factor, rv), (MapName.k_factor, kv)])
      = rusleErosionFromWorkspace E elevation m_coeff n_coeff (buildFactorGrids
        [(MapName.r_factor, rv), (MapName.c_factor, cv), (MapName.k_factor, kv)])
  ∧ rusleErosionFromWorkspace E elevation m_coeff n_coeff (buildFactorGrids
        [(MapName.c_factor, cv), (MapName.k_factor, kv), (MapName.r_factor, rv)])
      = rusleErosionFromWorkspace E elevation m_coeff n_coeff (buildFactorGrids
        [(MapName.r_factor, rv), (MapName.c_factor, cv), (MapName.k_factor, kv)])
  ∧ rusleErosionFromWorkspace E elevation m_coeff n_coeff (buildFactorGrids
        [(MapName.k_factor, kv), (MapName.r_factor, rv), (MapName.c_factor, cv)])
      = rusleErosionFromWorkspace E elevation m_coeff n_coeff (buildFactorGrids
        [(MapName.r_factor, rv), (MapName.c_factor, cv), (MapName.k_factor, kv)])
  ∧ rusleErosionFromWorkspace E elevation m_coeff n_coeff (buildFactorGrids
        [(MapName.k_factor, kv), (MapName.c_factor, cv), (MapName.r_factor, rv)])
      = rusleErosionFromWorkspace E elevation m_coeff n_coeff (buildFactorGrids
        [(MapName.r_factor, rv), (MapName.c_factor, cv), (MapName.k_factor, kv)]) := by
  have h1 : buildFactorGrids
        [(MapName.r_factor, rv), (MapName.k_factor, kv), (MapName.c_factor, cv)]
      = buildFactorGrids
        [(MapName.r_factor, rv), (MapName.c_factor, cv), (MapName.k_factor, kv)] := by
    funext nm; cases nm <;> rfl
  have h2 : buildFactorGrids
        [(MapName.c_factor, cv), (MapName.r_factor, rv), (MapName.k_factor, kv)]
      = buildFactorGrids
        [(MapName.r_factor, rv), (MapName.c_factor, cv), (MapName.k_factor, kv)] := by
    funext nm; cases nm <;> rfl
  have h3 : buildFactorGrids
        [(MapName.c_factor, cv), (MapName.k_factor, kv), (MapName.r_factor, rv)]
      = buildFactorGrids
        [(MapName.r_factor, rv), (MapName.c_factor, cv), (MapName.k_factor, kv)] := by
    funext nm; cases nm <;> rfl
  have h4 : buildFactorGrids
        [(MapName.k_factor, kv), (MapName.r_factor, rv), (MapName.c_factor, cv)]
      = buildFactorGrids
        [(MapName.r_factor, rv), (MapName.c_factor, cv), (MapName.k_factor, kv)] := by
    funext nm; cases nm <;> rfl
  have h5 : buildFactorGrids
        [(MapName.k_factor, kv), (MapName.c_factor, cv), (MapName.r_factor, rv)]
      = buildFactorGrids
        [(MapName.r_factor, rv), (MapName.c_factor, cv), (MapName.k_factor, kv)] := by
    funext nm; cases nm <;> rfl
  exact ⟨congrArg (rusleErosionFromWorkspace E elevation m_coeff n_coeff) h1,
         congrArg (rusleErosionFromWorkspace E elevation m_coeff n_coeff) h2,
         congrArg (rusleErosionFromWorkspace E elevation m_coeff n_coeff) h3,
         congrArg (rusleErosionFromWorkspace E elevation m_coeff n_coeff) h4,
         congrArg (rusleErosionFromWorkspace E elevation m_coeff n_coeff) h5⟩

/-- Claim C3 (code bug): main registers cleanup with atexit only after the model
dispatch (r.erosion.py line 228), so on a run whose first external command
raises, cleanup is invoked zero times at process exit, not once; on a
failure-free run it is invoked exactly once.  The cleanup function itself never
raises (its g.remove call is wrapped in try with an except CalledModuleError
handler that passes), whether or not the maps to remove exist. -/
theorem main_cleanup_once_violation :
    cleanup_invocations (mainRun (fun k => decide (k = 0)) defaultOptions) = 0
  ∧ (mainRun (fun k => decide (k = 0)) defaultOptions).raised = true
  ∧ cleanup_invocations (mainRun noFail defaultOptions) = 1
  ∧ cleanup true = Except.ok ()
  ∧ cleanup false = Except.ok () :=
  ⟨rfl, rfl, rfl, rfl, rfl⟩

/-- Counterexample to claim C5: with rain_intensity supplied and rain_duration
absent, the code still takes the event-based path (the guard at r.erosion.py
line 198 tests only rain_intensity), so the path is not taken exactly when both
inputs are supplied. -/
theorem event_path_iff_counterexample :
    ¬ (rFactorSource optsIntensityOnly = RSource.eventBased
        ↔ (optsIntensityOnly.rain_intensity.isSome = true
            ∧ optsIntensityOnly.rain_duration.isSome = true)) := by
  intro h
  have h2 := (h.mp rfl).2
  simp [optsIntensityOnly] at h2

/-- Claim C5 amended: the event-based R-factor path is taken exactly when
rain_intensity is supplied (rain_duration is not checked); when it is not taken
and no r_factor map is supplied, the R-factor map is the constant
r_factor_value, and k_factor and c_factor fall back to constant maps with
k_factor_value and c_factor_value when no map is supplied; the declared option
defaults are 310.0, 0.25 and 0.1. -/
theorem factor_source_amended (o : Options) :
    (rFactorSource o = RSource.eventBased ↔ o.rain_intensity.isSome = true)
  ∧ (o.rain_intensity = none → o.r_factor = none →
      rFactorSource o = RSource.constant o.r_factor_value)
  ∧ (o.k_factor = none → kFactorSource o = FactorSource.constant o.k_factor_value)
  ∧ (o.c_factor = none → cFactorSource o = FactorSource.constant o.c_factor_value)
  ∧ defaultOptions.r_factor_value = 310.0
  ∧ defaultOptions.k_factor_value = 0.25
  ∧ defaultOptions.c_factor_value = 0.1 := by
  refine ⟨⟨?_, ?_⟩, ?_, ?_, ?_, rfl, rfl, rfl⟩
  · intro h
    by_cases hi : o.rain_intensity.isSome = true
    · exact hi
    · by_cases hr : o.r_factor.isSome = true <;> simp [rFactorSource, hi, hr] at h
  · intro hi
    simp [rFactorSource, hi]
  · intro h1 h2
    simp [rFactorSource, h1, h2]
  · intro h
    simp [kFactorSource, h]
  · intro h
    simp [cFactorSource, h]

/-- Witness for the amended C5 at the default options (all optional inputs
absent): all three factor maps fall back to their constants. -/
theorem factor_source_amended_witness :
    defaultOptions.rain_intensity = none ∧ defaultOptions.r_factor = none
  ∧ rFactorSource defaultOptions = RSource.constant defaultOptions.r_factor_value
  ∧ kFactorSource defaultOptions = FactorSource.constant defaultOptions.k_factor_value
  ∧ cFactorSource defaultOptions = FactorSource.constant defaultOptions.c_factor_value :=
  ⟨rfl, rfl,
   (factor_source_amended defaultOptions).2.1 rfl rfl,
   (factor_source_amended defaultOptions).2.2.1 rfl,
   (factor_source_amended defaultOptions).2.2.2.1 rfl⟩
